import Mathlib

/-!
Shallow embedding of the node lifecycle manager of the ImageAlchemy repository:
the background configuration-sync worker (`neurons/utils.py`, `background_loop`)
and the miner lifecycle loop (`neurons/miners/default/base.py`, `BaseMiner`).

Python dicts are modelled as association lists in insertion order, Python sets of
keys as the list of keys in comprehension order, floats that only ever hold exact
literals (0.0, 1.0, weight-file entries) as rationals, and exceptions as explicit
early exits in the control flow of the embedding.
-/

namespace ImageAlchemy

/-- Python substring test `needle in hay` on strings, needle-first on char lists:
does `hay` start with `needle`? -/
def startsWithChars : List Char → List Char → Bool
  | [], _ => true
  | _ :: _, [] => false
  | n :: ns, h :: hs => n == h && startsWithChars ns hs

/-- Does `needle` occur as a contiguous substring of `hay` (as char lists)? -/
def subOccurs (needle : List Char) : List Char → Bool
  | [] => needle.isEmpty
  | c :: rest => startsWithChars needle (c :: rest) || subOccurs needle rest

/-- Python `needle in hay` for strings (substring containment). -/
def strContains (hay needle : String) : Bool :=
  subOccurs needle.toList hay.toList

/-- The dynamic policy state living on the neuron object, mutated by
`background_loop`: the four allow/deny key sets, the reward-weight vector, and
the two timing settings (`neurons/utils.py` lines 137-198).  Sets of identity
strings are modelled as lists of keys in the order the source comprehension
produces them. -/
structure ConfigCache where
  hotkey_blacklist : List String
  coldkey_blacklist : List String
  hotkey_whitelist : List String
  coldkey_whitelist : List String
  reward_weights : List ℚ
  request_frequency : ℕ
  query_timeout : ℕ
deriving DecidableEq

/-- Source comprehension `set([k for k, v in d.items() if v["type"] == ty])` for a blacklist/whitelist
blob `d`, modelled as the key list in comprehension order
(`neurons/utils.py` lines 137-150). -/
def keysOfType (entries : List (String × String)) (ty : String) : List String :=
  (entries.filter (fun kv => kv.2 == ty)).map Prod.fst

/-- Source comprehension `[v for k, v in validator_weights.items() if "manual" not in k]`
(`neurons/utils.py` line 181): the reward-weight vector derived from the
weight-file mapping, dropping every entry whose label contains "manual". -/
def rewardVector (weights : List (String × ℚ)) : List ℚ :=
  (weights.filter (fun kv => !(strContains kv.1 "manual"))).map Prod.snd

/-- The validator settings blob: `request_frequency` / `query_timeout` fields,
each possibly absent (`validator_settings.get(...)`,
`neurons/utils.py` lines 193-198). -/
structure ValidatorSettings where
  request_frequency : Option ℕ
  query_timeout : Option ℕ
deriving DecidableEq

/-- The config-refresh section of `background_loop` for a validator
(`neurons/utils.py` lines 125-207).  Each of the four blob arguments is the
result of `retrieve_public_file`: `none` when the download or the JSON parse
failed (that helper swallows its own exceptions and returns `None`).

Control flow follows the source exactly: the blacklist blob is applied when truthy
(non-`None` and non-empty), then the whitelist blob likewise; then
`validator_weights.items()` raises on `None` — the outer `except` catches it and
the tick ends with whatever fields were already assigned; otherwise
`reward_weights` is assigned; then `validator_settings.get` raises on `None`,
again ending the tick early; otherwise the two timing fields are assigned with
the defaults `dRF`/`dQT` for absent keys. -/
def configRefresh (bl wl : Option (List (String × String)))
    (wf : Option (List (String × ℚ))) (st : Option ValidatorSettings)
    (dRF dQT : ℕ) (c : ConfigCache) : ConfigCache :=
  let c1 := match bl with
    | some b =>
        if b.isEmpty then c
        else { c with hotkey_blacklist := keysOfType b "hotkey",
                      coldkey_blacklist := keysOfType b "coldkey" }
    | none => c
  let c2 := match wl with
    | some w =>
        if w.isEmpty then c1
        else { c1 with hotkey_whitelist := keysOfType w "hotkey",
                       coldkey_whitelist := keysOfType w "coldkey" }
    | none => c1
  match wf with
  | none => c2
  | some ws =>
    let c3 := { c2 with reward_weights := rewardVector ws }
    match st with
    | none => c3
    | some s =>
      { c3 with request_frequency := s.request_frequency.getD dRF,
                query_timeout := s.query_timeout.getD dQT }

/-- The environment one background tick observes: the result of the registry
sync (`none` when `metagraph.sync` raises) and the four `retrieve_public_file`
results for blacklist, whitelist, weight file and settings file. -/
structure BGEnv where
  sync : Option (List String)
  bl : Option (List (String × String))
  wl : Option (List (String × String))
  wf : Option (List (String × ℚ))
  st : Option ValidatorSettings
deriving DecidableEq

/-- Source test `not self.wallet.hotkey.ss58_address in self.metagraph.hotkeys` after a
successful sync (`neurons/utils.py` line 104); a failed sync is caught and is
never a deregistration (line 119). -/
def deregDetected (hot : String) (sync : Option (List String)) : Bool :=
  match sync with
  | some hotkeys => !(hotkeys.contains hot)
  | none => false

/-- Outcome of one background tick: either the process was killed by
`os._exit(0)` (carrying the cache exactly as it stood at that moment), or the
tick ran to the end, with the incremented step counter, the cache after the
refresh section, and the two flags recording whether the refresh block and the
artifact-cleanup block were entered. -/
inductive BGResult
  | exit (c : ConfigCache)
  | next (steps : ℕ) (c : ConfigCache) (refreshRan cleanupRan : Bool)
deriving DecidableEq

/-- One tick of `background_loop` for a validator (`neurons/utils.py`
lines 89-237), on step counter `steps` and cache `c`.

Guard structure from the source: the deregistration check is gated by
`background_steps % 1 == 0 and background_steps > 1`; on a detected
deregistration the process exits before the refresh and cleanup sections run.
The refresh section is gated by `background_steps % 1 == 0`; the cleanup block
by `background_steps == 1 or background_steps % 300 == 0`.  The counter is
incremented at the very end of the tick. -/
def backgroundTick (hot : String) (env : BGEnv) (dRF dQT : ℕ)
    (steps : ℕ) (c : ConfigCache) : BGResult :=
  if steps % 1 = 0 ∧ 1 < steps ∧ deregDetected hot env.sync = true then
    BGResult.exit c
  else
    let refreshGate := steps % 1 = 0
    let c2 := if refreshGate then configRefresh env.bl env.wl env.wf env.st dRF dQT c else c
    let cleanupGate := steps = 1 ∨ steps % 300 = 0
    BGResult.next (steps + 1) c2 (decide refreshGate) (decide cleanupGate)

/-- The cache as it stands when the outcome of the tick is reached. -/
def tickCache : BGResult → ConfigCache
  | BGResult.exit c => c
  | BGResult.next _ c _ _ => c

/-- Whether the tick entered the artifact-cleanup block (an exited tick never
reaches it). -/
def tickCleanupRan : BGResult → Bool
  | BGResult.exit _ => false
  | BGResult.next _ _ _ b => b

/-- Modelled from the spec: the initial value of the step counter
`self.background_steps` is assigned in the neuron initialisation code, which is
not among the provided sources.  The spec schedules the deregistration check on
"every tick after the first"; with the source gate `background_steps > 1` and
the counter incremented once per tick, that holds exactly when the counter is 1
on the first tick. -/
def background_steps_init : ℕ := 1

/-- Run `background_loop` ticks, one per environment, starting from step
counter `steps` and cache `c`; returns how many times process termination was
invoked.  `os._exit(0)` kills the process, so no tick after an exit runs. -/
def runBackground (hot : String) (dRF dQT : ℕ) :
    List BGEnv → ℕ → ConfigCache → ℕ
  | [], _, _ => 0
  | e :: es, steps, c =>
    match backgroundTick hot e dRF dQT steps c with
    | BGResult.exit _ => 1
    | BGResult.next steps2 c2 _ _ => runBackground hot dRF dQT es steps2 c2

/-- Source lookup `self.metagraph.hotkeys.index(self.wallet.hotkey.ss58_address)` with the
`ValueError` turned into `None` (`neurons/miners/default/base.py`
lines 143-152): the first position of the node hotkey in the snapshot. -/
def get_miner_index (hotkeys : List String) (hot : String) : Option ℕ :=
  List.findIdx? (fun h => h == hot) hotkeys

/-- Source assignment `weights = [0.0] * len(self.metagraph.uids)` then `weights[self.miner_index] = 1.0`
(`neurons/miners/default/base.py` lines 212-213). -/
def selfWeights (n k : ℕ) : List ℚ :=
  (List.replicate n (0 : ℚ)).set k 1

/-- The mutable state of the miner lifecycle loop that its body touches:
`self.miner_index`, the local `step` counter, and whether `self.axon` was ever
assigned (the axon construction at `base.py` lines 127-137 is commented out, so
in the source this is never the case). -/
structure MinerState where
  miner_index : Option ℕ
  step : ℕ
  hasAxon : Bool
deriving DecidableEq

/-- Which exceptional event, if any, interrupts the body of one `loop`
iteration: an `Exception` inside the telemetry/weight-submission `try` block
(e.g. `set_weights` failing), a `KeyboardInterrupt` inside that block, or an
exception from `self.metagraph.sync(lite=True)` in the unregistered branch
(`base.py` line 190), which no handler covers. -/
inductive LoopEvent
  | ok
  | submitError
  | keyboardInterrupt
  | syncError
deriving DecidableEq

/-- Outcome of one iteration of `loop`: continue to the next iteration with the
new state, the sleeps performed (in seconds, in order) and the weight vector
submitted this iteration if any; or leave the loop via `break` after stopping
the axon; or crash — an exception propagating out of the `while` loop. -/
inductive IterResult
  | next (s : MinerState) (sleeps : List ℕ) (submitted : Option (List ℚ))
  | exitClean (s : MinerState)
  | crash (msg : String) (s : MinerState)
deriving DecidableEq

/-- One iteration of `BaseMiner.loop` (`neurons/miners/default/base.py`
lines 179-238) against a snapshot with hotkey list `hotkeys` and
`len(self.metagraph.uids) = uidsLen`.

Control flow from the source: `check_still_registered` re-assigns
`self.miner_index` from a fresh lookup every iteration.  Unregistered: log,
sleep 120, resync (an exception there is uncaught and kills the loop),
`continue` — the trailing 30s sleep is skipped.  Registered: inside `try`,
every 5th step telemetry is emitted and the self-weight vector submitted, then
`step += 1` and sleep 60; a caught `Exception` logs and `continue`s (no sleeps,
state before the increment); a `KeyboardInterrupt` handler calls
`self.axon.stop()` — which raises `AttributeError` when the axon was never
created — then logs and `break`s; after a normal `try`, sleep 30. -/
def loopIter (hotkeys : List String) (uidsLen : ℕ) (hot : String)
    (ev : LoopEvent) (s : MinerState) : IterResult :=
  let idx := get_miner_index hotkeys hot
  let s1 := { s with miner_index := idx }
  match idx with
  | none =>
    match ev with
    | LoopEvent.syncError => IterResult.crash "metagraph.sync raised" s1
    | _ => IterResult.next s1 [120] none
  | some k =>
    match ev with
    | LoopEvent.keyboardInterrupt =>
        if s1.hasAxon then IterResult.exitClean s1
        else IterResult.crash "AttributeError: self.axon" s1
    | LoopEvent.submitError => IterResult.next s1 [] none
    | _ =>
        let submitted := if s1.step % 5 = 0 then some (selfWeights uidsLen k) else none
        IterResult.next { s1 with step := s1.step + 1 } [60, 30] submitted

/-- The observable actions of one pass of `loop_until_registered`
(`neurons/miners/default/base.py` lines 67-83). -/
inductive RegAction
  | successLog
  | warnLog
  | sleepBackoff (secs : ℕ)
  | resync
deriving DecidableEq

/-- One pass of the `while True` body of `loop_until_registered`: look up the
index; if found, log success and stop with the index; otherwise log the
warning, `time.sleep(120)`, `self.metagraph.sync(lite=True)` and go round
again. -/
def loopUntilRegisteredCycle (hotkeys : List String) (hot : String) :
    Option ℕ × List RegAction :=
  match get_miner_index hotkeys hot with
  | some k => (some k, [RegAction.successLog])
  | none => (none, [RegAction.warnLog, RegAction.sleepBackoff 120, RegAction.resync])

/-- The options `BaseMiner.get_args` reads from `self.config`. -/
structure MinerConfig where
  guidance_scale : ℚ
  steps : ℕ
  num_images : ℕ
  device : String
  seed : ℕ
deriving DecidableEq

/-- The inference-argument record described by the dict literal in the body of
`get_args` (`neurons/miners/default/base.py` lines 10-18); the torch generator
is represented by the seed it is constructed from. -/
structure MinerArgs where
  guidance_scale : ℚ
  num_inference_steps : ℕ
  num_images_per_prompt : ℕ
  generator_seed : ℕ
deriving DecidableEq

/-- The dict literal the body of `get_args` evaluates. -/
def get_args_dict (cfg : MinerConfig) : MinerArgs :=
  { guidance_scale := cfg.guidance_scale
    num_inference_steps := cfg.steps
    num_images_per_prompt := cfg.num_images
    generator_seed := cfg.seed }

/-- Function `BaseMiner.get_args` (`neurons/miners/default/base.py` lines 10-18): the
body is a bare dict expression statement — it is evaluated and discarded, there
is no `return`, and the Python function falls through returning `None`. -/
def get_args (cfg : MinerConfig) : Option MinerArgs :=
  let _ := get_args_dict cfg
  none

/-- The value `BaseMiner.__init__` stores via `self.miner.args = self.get_args()`
(`neurons/miners/default/base.py` line 94). -/
def init_miner_args (cfg : MinerConfig) : Option MinerArgs :=
  get_args cfg

/-- A concrete pre-tick cache used by the concrete instances below. -/
def cacheEx : ConfigCache :=
  { hotkey_blacklist := [], coldkey_blacklist := [], hotkey_whitelist := [],
    coldkey_whitelist := [], reward_weights := [], request_frequency := 100,
    query_timeout := 10 }

/-- A tick environment in which the node is still registered, the blacklist
fetch succeeds with one hotkey entry, and the weight-file fetch fails. -/
def mixEnv : BGEnv :=
  { sync := some ["h"], bl := some [("X", "hotkey")], wl := none, wf := none, st := none }

/-- A tick environment in which the node is still registered and every store
fetch fails. -/
def okEnv : BGEnv :=
  { sync := some ["h"], bl := none, wl := none, wf := none, st := none }

/-- A tick environment whose synced snapshot does not contain the hotkey
`"h"`. -/
def deregEnv : BGEnv :=
  { sync := some [], bl := none, wl := none, wf := none, st := none }

theorem findIdxGo_lt (p : String → Bool) :
    ∀ (l : List String) (start i : ℕ), List.findIdx? p l start = some i → i < start + l.length := by
  intro l
  induction l with
  | nil => intro start i h; simp [List.findIdx?] at h
  | cons a as ih =>
      intro start i h
      simp only [List.findIdx?] at h
      by_cases hp : p a
      · simp only [hp, if_true, Option.some_inj] at h
        simp only [List.length_cons]
        omega
      · simp only [hp, if_false] at h
        have := ih (start + 1) i h
        simp only [List.length_cons]
        omega

theorem get_miner_index_lt {hotkeys : List String} {hot : String} {k : ℕ}
    (h : get_miner_index hotkeys hot = some k) : k < hotkeys.length := by
  have := findIdxGo_lt (fun x => x == hot) hotkeys 0 k h
  omega

theorem get_miner_index_of_not_mem {hotkeys : List String} {hot : String}
    (h : hot ∉ hotkeys) : get_miner_index hotkeys hot = none := by
  unfold get_miner_index
  rw [List.findIdx?_eq_none_iff]
  intro x hx
  simp only [beq_eq_false_iff_ne, ne_eq]
  exact fun hxs => h (hxs ▸ hx)

theorem selfWeights_length (n k : ℕ) : (selfWeights n k).length = n := by
  simp [selfWeights]

theorem selfWeights_self {n k : ℕ} (h : k < n) : (selfWeights n k)[k]? = some 1 := by
  unfold selfWeights
  rw [List.getElem?_set_eq_of_lt]
  simpa using h

theorem selfWeights_other {n k : ℕ} (j : ℕ) (hj : j < n) (hne : j ≠ k) :
    (selfWeights n k)[j]? = some 0 := by
  unfold selfWeights
  rw [List.getElem?_set_ne (by omega : k ≠ j)]
  simp [List.getElem?_replicate, hj]


/-- C1: the claim fails on the code.  A background tick whose weight-file fetch
fails but whose blacklist fetch succeeded does not leave the cache untouched:
after the tick the blacklist holds the newly fetched generation while the
reward weights still hold the pre-tick generation — the refresh is
field-by-field, not all-or-nothing. -/
theorem C1_counterexample :
    tickCache (backgroundTick "h" mixEnv 35 10 5 cacheEx) ≠ cacheEx ∧
    (tickCache (backgroundTick "h" mixEnv 35 10 5 cacheEx)).reward_weights
      = cacheEx.reward_weights ∧
    (tickCache (backgroundTick "h" mixEnv 35 10 5 cacheEx)).hotkey_blacklist = ["X"] := by
  decide

/-- C1 (amended): the config refresh mutates the cache group by group
(blacklists, whitelists, reward weights, settings).  When the weight-file fetch
fails, the exception aborts the weight and settings updates — those fields keep
their pre-tick values — while a successful non-empty blacklist fetch earlier in
the same tick has already replaced the blacklist fields, so the cache after the
tick can mix two refresh generations. -/
theorem C1_refresh_not_atomic (bl wl : Option (List (String × String)))
    (st : Option ValidatorSettings) (dRF dQT : ℕ) (c : ConfigCache)
    (b : List (String × String)) (hbl : bl = some b) (hb : b ≠ []) :
    (configRefresh bl wl none st dRF dQT c).reward_weights = c.reward_weights ∧
    (configRefresh bl wl none st dRF dQT c).request_frequency = c.request_frequency ∧
    (configRefresh bl wl none st dRF dQT c).query_timeout = c.query_timeout ∧
    (configRefresh bl wl none st dRF dQT c).hotkey_blacklist = keysOfType b "hotkey" ∧
    (configRefresh bl wl none st dRF dQT c).coldkey_blacklist = keysOfType b "coldkey" := by
  subst hbl
  have hb2 : b.isEmpty = false := by
    cases b with
    | nil => exact absurd rfl hb
    | cons x xs => rfl
  unfold configRefresh
  cases wl with
  | none => simp [hb2]
  | some w =>
      by_cases hw : w.isEmpty <;> simp [hb2, hw]

theorem C1_refresh_not_atomic_witness :
    (configRefresh (some [("X", "hotkey")]) none none none 35 10 cacheEx).reward_weights
      = cacheEx.reward_weights ∧
    (configRefresh (some [("X", "hotkey")]) none none none 35 10 cacheEx).request_frequency
      = cacheEx.request_frequency ∧
    (configRefresh (some [("X", "hotkey")]) none none none 35 10 cacheEx).query_timeout
      = cacheEx.query_timeout ∧
    (configRefresh (some [("X", "hotkey")]) none none none 35 10 cacheEx).hotkey_blacklist
      = keysOfType [("X", "hotkey")] "hotkey" ∧
    (configRefresh (some [("X", "hotkey")]) none none none 35 10 cacheEx).coldkey_blacklist
      = keysOfType [("X", "hotkey")] "coldkey" :=
  C1_refresh_not_atomic (some [("X", "hotkey")]) none none 35 10 cacheEx
    [("X", "hotkey")] rfl (by decide)

/-- C2: in the registered steady state, on a submission step, the loop submits
the self-weight vector: length `n = len(uids)`, value 1 at the own index `k`
and 0 at every other position below `n`. -/
theorem C2_self_weight_vector (hotkeys : List String) (uidsLen k : ℕ) (hot : String)
    (s : MinerState) (hk : get_miner_index hotkeys hot = some k)
    (hstep : s.step % 5 = 0) (hlen : uidsLen = hotkeys.length) :
    loopIter hotkeys uidsLen hot LoopEvent.ok s =
      IterResult.next { s with miner_index := some k, step := s.step + 1 } [60, 30]
        (some (selfWeights uidsLen k)) ∧
    (selfWeights uidsLen k).length = uidsLen ∧
    (selfWeights uidsLen k)[k]? = some 1 ∧
    ∀ j, j < uidsLen → j ≠ k → (selfWeights uidsLen k)[j]? = some 0 := by
  have hkn : k < uidsLen := hlen ▸ get_miner_index_lt hk
  refine ⟨?_, selfWeights_length uidsLen k, selfWeights_self hkn,
    fun j hj hne => selfWeights_other j hj hne⟩
  unfold loopIter
  rw [hk]
  simp [hstep]

theorem C2_self_weight_vector_witness :
    loopIter ["a", "h", "b"] 3 "h" LoopEvent.ok ⟨none, 0, false⟩ =
      IterResult.next ⟨some 1, 1, false⟩ [60, 30] (some (selfWeights 3 1)) :=
  (C2_self_weight_vector ["a", "h", "b"] 3 1 "h" ⟨none, 0, false⟩ (by decide) (by decide) rfl).1


/-- C3: on every background tick after the first (step counter at least 2), a
synced snapshot missing the own hotkey exits the process at once, with the
cache exactly as it stood before the tick — neither the config refresh nor the
artifact cleanup of that tick runs; and over a whole run in which the condition
holds from the second tick on, termination is invoked exactly once, because the
process dies on the first detecting tick and later ticks are never reached. -/
theorem C3_dereg_terminates_once (hot : String) (dRF dQT : ℕ) (c c2 : ConfigCache)
    (env : BGEnv) (t : ℕ) (ht : 2 ≤ t) (hd : deregDetected hot env.sync = true)
    (e1 e2 : BGEnv) (rest : List BGEnv)
    (h2 : deregDetected hot e2.sync = true)
    (_hrest : ∀ e ∈ rest, deregDetected hot e.sync = true) :
    backgroundTick hot env dRF dQT t c = BGResult.exit c ∧
    runBackground hot dRF dQT (e1 :: e2 :: rest) background_steps_init c2 = 1 := by
  constructor
  · unfold backgroundTick
    rw [if_pos ⟨Nat.mod_one t, by omega, hd⟩]
  · show runBackground hot dRF dQT (e1 :: e2 :: rest) 1 c2 = 1
    have h1 : ¬ (1 % 1 = 0 ∧ 1 < 1 ∧ deregDetected hot e1.sync = true) := by
      intro h; exact absurd h.2.1 (by omega)
    unfold runBackground backgroundTick
    rw [if_neg h1]
    simp only
    unfold runBackground backgroundTick
    rw [if_pos ⟨Nat.mod_one 2, by omega, h2⟩]

theorem C3_dereg_terminates_once_witness :
    backgroundTick "h" deregEnv 35 10 2 cacheEx = BGResult.exit cacheEx ∧
    runBackground "h" 35 10 [deregEnv, deregEnv, deregEnv] background_steps_init cacheEx = 1 :=
  C3_dereg_terminates_once "h" 35 10 cacheEx cacheEx deregEnv 2 (by omega) (by decide)
    deregEnv deregEnv [deregEnv] (by decide) (fun e he => by
      simp only [List.mem_singleton] at he
      subst he
      decide)

/-- C4: the claim fails on the code.  With the step counter starting at 1 (the
value forced by the spec sentence scheduling the deregistration check on every
tick after the first), the cleanup gate `background_steps == 1 or
background_steps % 300 == 0` fires on tick 300 and does not fire on tick 301. -/
theorem C4_counterexample :
    tickCleanupRan (backgroundTick "h" okEnv 35 10 301 cacheEx) = false ∧
    tickCleanupRan (backgroundTick "h" okEnv 35 10 300 cacheEx) = true := by
  decide

/-- C4 (amended): on every background tick that does not terminate the process,
the artifact-cleanup block runs exactly when the step counter is 1 or a
multiple of 300 — that is, on tick 1 and on ticks 300, 600, 900, and so on. -/
theorem C4_cleanup_cadence (hot : String) (env : BGEnv) (dRF dQT t : ℕ) (c : ConfigCache)
    (hnd : deregDetected hot env.sync = false) :
    tickCleanupRan (backgroundTick hot env dRF dQT t c) = true ↔ t = 1 ∨ 300 ∣ t := by
  unfold backgroundTick
  rw [if_neg (by simp [hnd])]
  simp only [tickCleanupRan, decide_eq_true_eq]
  constructor
  · rintro (h | h)
    · exact Or.inl h
    · exact Or.inr (Nat.dvd_iff_mod_eq_zero.mpr h)
  · rintro (h | h)
    · exact Or.inl h
    · exact Or.inr (Nat.dvd_iff_mod_eq_zero.mp h)

theorem C4_cleanup_cadence_witness :
    tickCleanupRan (backgroundTick "h" okEnv 35 10 300 cacheEx) = true :=
  (C4_cleanup_cadence "h" okEnv 35 10 300 cacheEx (by decide)).mpr (Or.inr ⟨1, rfl⟩)


/-- C5: the code contradicts the claim and its own comment.  The axon is never
created (its construction at `base.py` lines 127-137 is commented out), yet the
`KeyboardInterrupt` handler still calls `self.axon.stop()`; on an interrupt the
handler raises `AttributeError` and the loop crashes instead of stopping the
serving boundary, logging the notice and breaking cleanly.  The second conjunct
shows the clean path the handler was written for, reachable only in a state in
which the axon exists. -/
theorem C5_interrupt_crashes :
    loopIter ["hk"] 1 "hk" LoopEvent.keyboardInterrupt ⟨some 0, 0, false⟩ =
      IterResult.crash "AttributeError: self.axon" ⟨some 0, 0, false⟩ ∧
    loopIter ["hk"] 1 "hk" LoopEvent.keyboardInterrupt ⟨some 0, 0, true⟩ =
      IterResult.exitClean ⟨some 0, 0, true⟩ := by
  decide

/-- C6: the claim fails on the code.  An unregistered iteration sleeps 120
seconds and then `continue`s, skipping the trailing `time.sleep(30)`: the
trailing 30-second delay is not applied on that branch. -/
theorem C6_counterexample :
    loopIter [] 0 "hk" LoopEvent.ok ⟨none, 0, false⟩ =
      IterResult.next ⟨none, 0, false⟩ [120] none ∧
    ¬ (30 ∈ ([120] : List ℕ)) := by
  decide

/-- C6 (amended): the trailing 30-second delay applies only to a registered
iteration whose try block completes normally (sleeps 60 then 30); an
unregistered iteration sleeps only its 120-second backoff before `continue`,
and an error-recovery iteration `continue`s with no sleep at all. -/
theorem C6_trailing_delay (hotkeys : List String) (uidsLen : ℕ) (hot : String)
    (s : MinerState) :
    (∀ k, get_miner_index hotkeys hot = some k →
       loopIter hotkeys uidsLen hot LoopEvent.ok s =
         IterResult.next { s with miner_index := some k, step := s.step + 1 } [60, 30]
           (if s.step % 5 = 0 then some (selfWeights uidsLen k) else none) ∧
       loopIter hotkeys uidsLen hot LoopEvent.submitError s =
         IterResult.next { s with miner_index := some k } [] none) ∧
    (get_miner_index hotkeys hot = none →
       loopIter hotkeys uidsLen hot LoopEvent.ok s =
         IterResult.next { s with miner_index := none } [120] none) := by
  constructor
  · intro k hk
    constructor
    · unfold loopIter
      rw [hk]
    · unfold loopIter
      rw [hk]
  · intro hk
    unfold loopIter
    rw [hk]

theorem C6_trailing_delay_witness :
    loopIter ["hk"] 1 "hk" LoopEvent.submitError ⟨none, 2, false⟩ =
      IterResult.next ⟨some 0, 2, false⟩ [] none ∧
    loopIter [] 0 "hk" LoopEvent.ok ⟨none, 2, false⟩ =
      IterResult.next ⟨none, 2, false⟩ [120] none :=
  ⟨((C6_trailing_delay ["hk"] 1 "hk" ⟨none, 2, false⟩).1 0 (by decide)).2,
   (C6_trailing_delay [] 0 "hk" ⟨none, 2, false⟩).2 (by decide)⟩

/-- C7: the claim fails on the code.  An exception raised by
`self.metagraph.sync(lite=True)` in the unregistered branch (`base.py`
line 190) is inside the loop body but outside the try block; no handler covers
it, so it propagates and terminates the loop instead of being caught and
logged. -/
theorem C7_counterexample :
    loopIter [] 0 "hk" LoopEvent.syncError ⟨none, 0, false⟩ =
      IterResult.crash "metagraph.sync raised" ⟨none, 0, false⟩ := by
  decide

/-- C7 (amended): a runtime error raised inside the registered-branch try block
(including a weight-submission failure) is caught and logged and the loop
continues at the next iteration, with the registration index still the fresh
lookup result and the step counter unchanged; but an error raised by the
unregistered-branch registry resync is not caught and terminates the loop. -/
theorem C7_errors_in_try_caught (hotkeys : List String) (uidsLen : ℕ) (hot : String)
    (s : MinerState) (k : ℕ) (hk : get_miner_index hotkeys hot = some k) :
    loopIter hotkeys uidsLen hot LoopEvent.submitError s =
      IterResult.next { s with miner_index := some k } [] none ∧
    ({ s with miner_index := some k } : MinerState).miner_index
      = get_miner_index hotkeys hot ∧
    ({ s with miner_index := some k } : MinerState).step = s.step ∧
    (∀ hotkeys2 hot2 uidsLen2 s2, get_miner_index hotkeys2 hot2 = none →
       loopIter hotkeys2 uidsLen2 hot2 LoopEvent.syncError s2 =
         IterResult.crash "metagraph.sync raised" { s2 with miner_index := none }) := by
  refine ⟨?_, hk.symm, rfl, ?_⟩
  · unfold loopIter
    rw [hk]
  · intro hotkeys2 hot2 uidsLen2 s2 h2
    unfold loopIter
    rw [h2]

theorem C7_errors_in_try_caught_witness :
    loopIter ["hk"] 1 "hk" LoopEvent.submitError ⟨none, 7, false⟩ =
      IterResult.next ⟨some 0, 7, false⟩ [] none :=
  (C7_errors_in_try_caught ["hk"] 1 "hk" ⟨none, 7, false⟩ 0 (by decide)).1

/-- C8: for a snapshot without the own hotkey the index lookup returns `none`
(the `ValueError` is swallowed, not propagated); an unregistered cycle of
`loop_until_registered` stays unregistered, logs the warning, sleeps the
120-second backoff and resyncs the snapshot; and the unregistered branch of the
main loop likewise stays unregistered and sleeps 120 seconds. -/
theorem C8_unregistered_poll (hotkeys : List String) (hot : String) (s : MinerState)
    (uidsLen : ℕ) (h : hot ∉ hotkeys) :
    get_miner_index hotkeys hot = none ∧
    loopUntilRegisteredCycle hotkeys hot =
      (none, [RegAction.warnLog, RegAction.sleepBackoff 120, RegAction.resync]) ∧
    loopIter hotkeys uidsLen hot LoopEvent.ok s =
      IterResult.next { s with miner_index := none } [120] none := by
  have hn := get_miner_index_of_not_mem h
  refine ⟨hn, ?_, ?_⟩
  · unfold loopUntilRegisteredCycle
    rw [hn]
  · unfold loopIter
    rw [hn]

theorem C8_unregistered_poll_witness :
    get_miner_index ["a"] "h" = none ∧
    loopUntilRegisteredCycle ["a"] "h" =
      (none, [RegAction.warnLog, RegAction.sleepBackoff 120, RegAction.resync]) ∧
    loopIter ["a"] 1 "h" LoopEvent.ok ⟨none, 0, false⟩ =
      IterResult.next ⟨none, 0, false⟩ [120] none :=
  C8_unregistered_poll ["a"] "h" ⟨none, 0, false⟩ 1 (by decide)

/-- C9: the derived reward-weight vector keeps, in original key order, exactly
the values whose label does not contain the substring "manual": on the mapping
a=1, manual_b=2, c=3 it is the vector 1, 3; the derivation distributes over
concatenation and keeps or drops a single entry according to the substring
test on its label. -/
theorem C9_reward_weight_filtering :
    rewardVector [("a", 1), ("manual_b", 2), ("c", 3)] = [1, 3] ∧
    (∀ xs ys : List (String × ℚ),
       rewardVector (xs ++ ys) = rewardVector xs ++ rewardVector ys) ∧
    (∀ (k : String) (v : ℚ),
       rewardVector [(k, v)] = if strContains k "manual" then [] else [v]) := by
  refine ⟨by decide, ?_, ?_⟩
  · intro xs ys
    simp [rewardVector, List.filter_append]
  · intro k v
    by_cases h : strContains k "manual" <;> simp [rewardVector, h]

/-- C10: `BaseMiner.get_args` evaluates its dict literal as a bare expression
statement and falls through without a return, so it returns `None` for every
configuration and never the built dict; the assignment in `__init__` therefore
stores `None`. -/
theorem C10_get_args_returns_none :
    (∀ cfg : MinerConfig, get_args cfg = none) ∧
    (∀ cfg : MinerConfig, init_miner_args cfg = none) ∧
    (∀ cfg : MinerConfig, get_args cfg ≠ some (get_args_dict cfg)) := by
  refine ⟨fun _ => rfl, fun _ => rfl, fun cfg h => ?_⟩
  simp [get_args] at h

end ImageAlchemy
